import Mathlib

/-
Verification of the client-side state layer of the RAG document Q&A
frontend (src/frontend/app/page.tsx).

The embedding models the JavaScript/JSON data the component manipulates:
JSON values are an inductive type, `JSON.parse` is an executable
recursive-descent parser (restricted to integer numerals and the common
string escapes; inputs outside that fragment simply fail to parse, which
only narrows the set of representable storage/response texts),
`JSON.stringify` is an executable printer, and the two async handlers
`handleQuery` / `handleFactCheck` are pure functions from the component
state and the fetch outcome to the settled component state.  Engine-level
exception messages (SyntaxError / TypeError texts) are modelled by fixed
strings, since the code only ever concatenates them after a fixed
message head.
-/

namespace RagUi

/-- JSON values, as produced by `JSON.parse` (numbers restricted to
integers, which is all this frontend's data ever uses). -/
inductive Json where
  | null : Json
  | bool : Bool → Json
  | num : Int → Json
  | str : String → Json
  | arr : List Json → Json
  | obj : List (String × Json) → Json
deriving Repr

mutual

/-- Decidable equality on JSON values. -/
def jsonDecEq : (a b : Json) → Decidable (a = b)
  | .null, .null => .isTrue rfl
  | .bool a, .bool b =>
    if h : a = b then .isTrue (by rw [h])
    else .isFalse (by intro hh; injection hh with h1; exact h h1)
  | .num a, .num b =>
    if h : a = b then .isTrue (by rw [h])
    else .isFalse (by intro hh; injection hh with h1; exact h h1)
  | .str a, .str b =>
    if h : a = b then .isTrue (by rw [h])
    else .isFalse (by intro hh; injection hh with h1; exact h h1)
  | .arr a, .arr b =>
    match jsonListDecEq a b with
    | .isTrue h => .isTrue (by rw [h])
    | .isFalse h => .isFalse (by intro hh; injection hh with h1; exact h h1)
  | .obj a, .obj b =>
    match jsonFieldsDecEq a b with
    | .isTrue h => .isTrue (by rw [h])
    | .isFalse h => .isFalse (by intro hh; injection hh with h1; exact h h1)
  | .null, .bool _ => .isFalse nofun
  | .null, .num _ => .isFalse nofun
  | .null, .str _ => .isFalse nofun
  | .null, .arr _ => .isFalse nofun
  | .null, .obj _ => .isFalse nofun
  | .bool _, .null => .isFalse nofun
  | .bool _, .num _ => .isFalse nofun
  | .bool _, .str _ => .isFalse nofun
  | .bool _, .arr _ => .isFalse nofun
  | .bool _, .obj _ => .isFalse nofun
  | .num _, .null => .isFalse nofun
  | .num _, .bool _ => .isFalse nofun
  | .num _, .str _ => .isFalse nofun
  | .num _, .arr _ => .isFalse nofun
  | .num _, .obj _ => .isFalse nofun
  | .str _, .null => .isFalse nofun
  | .str _, .bool _ => .isFalse nofun
  | .str _, .num _ => .isFalse nofun
  | .str _, .arr _ => .isFalse nofun
  | .str _, .obj _ => .isFalse nofun
  | .arr _, .null => .isFalse nofun
  | .arr _, .bool _ => .isFalse nofun
  | .arr _, .num _ => .isFalse nofun
  | .arr _, .str _ => .isFalse nofun
  | .arr _, .obj _ => .isFalse nofun
  | .obj _, .null => .isFalse nofun
  | .obj _, .bool _ => .isFalse nofun
  | .obj _, .num _ => .isFalse nofun
  | .obj _, .str _ => .isFalse nofun
  | .obj _, .arr _ => .isFalse nofun

/-- Decidable equality on lists of JSON values. -/
def jsonListDecEq : (a b : List Json) → Decidable (a = b)
  | [], [] => .isTrue rfl
  | [], _ :: _ => .isFalse nofun
  | _ :: _, [] => .isFalse nofun
  | x :: xs, y :: ys =>
    match jsonDecEq x y with
    | .isFalse h => .isFalse (by intro hh; injection hh with h1 h2; exact h h1)
    | .isTrue h1 =>
      match jsonListDecEq xs ys with
      | .isTrue h2 => .isTrue (by rw [h1, h2])
      | .isFalse h => .isFalse (by intro hh; injection hh with ha hb; exact h hb)

/-- Decidable equality on JSON object field lists. -/
def jsonFieldsDecEq : (a b : List (String × Json)) → Decidable (a = b)
  | [], [] => .isTrue rfl
  | [], _ :: _ => .isFalse nofun
  | _ :: _, [] => .isFalse nofun
  | (k1, v1) :: xs, (k2, v2) :: ys =>
    if hk : k1 = k2 then
      match jsonDecEq v1 v2 with
      | .isFalse h =>
        .isFalse (by
          intro hh; injection hh with h1 h2; injection h1 with ha hb; exact h hb)
      | .isTrue hv =>
        match jsonFieldsDecEq xs ys with
        | .isTrue ht => .isTrue (by rw [hk, hv, ht])
        | .isFalse h => .isFalse (by intro hh; injection hh with ha hb; exact h hb)
    else
      .isFalse (by
        intro hh; injection hh with h1 h2; injection h1 with ha hb; exact hk ha)

end

instance : DecidableEq Json := jsonDecEq

/-- First-match lookup of a key among an object's fields.  Objects built
by `jsonParse` have unique keys (duplicates collapse, last value wins,
as in JavaScript), so first-match agrees with JavaScript member access. -/
def objLookup : List (String × Json) → String → Option Json
  | [], _ => none
  | (k, v) :: rest, key => if k = key then some v else objLookup rest key

/-- Insert a field, replacing the value in place when the key exists
(JavaScript object insertion order with last-assignment-wins values). -/
def insertField : List (String × Json) → String → Json → List (String × Json)
  | [], k, v => [(k, v)]
  | (k0, v0) :: rest, k, v =>
    if k0 = k then (k0, v) :: rest else (k0, v0) :: insertField rest k v

/-- Collapse duplicate keys of a parsed field list the way `JSON.parse`
does. -/
def dedupFields (ps : List (String × Json)) : List (String × Json) :=
  ps.foldl (fun acc kv => insertField acc kv.1 kv.2) []

/-- JavaScript member access `j[k]`: a field lookup on objects,
`undefined` (here `none`) on every other non-null value.  Access on
`null` throws and is handled explicitly at each call site. -/
def jsGet (j : Json) (k : String) : Option Json :=
  match j with
  | .obj fs => objLookup fs k
  | _ => none

/-- JavaScript truthiness of a JSON value. -/
def jsTruthy : Json → Bool
  | .null => false
  | .bool b => b
  | .num n => n != 0
  | .str s => s != ""
  | .arr _ => true
  | .obj _ => true

/-- JSON whitespace accepted between tokens. -/
def jsonWs (c : Char) : Bool :=
  c == ' ' || c == '\t' || c == '\n' || c == '\r'

/-- Drop leading JSON whitespace. -/
def skipWs : List Char → List Char
  | [] => []
  | c :: cs => if jsonWs c then skipWs cs else c :: cs

/-- Decode a backslash escape inside a JSON string literal (the common
escapes; `\u` sequences are outside the modelled fragment). -/
def escChar (c : Char) : Option Char :=
  match c.toNat with
  | 34 => some '"'
  | 92 => some '\\'
  | 47 => some '/'
  | 110 => some '\n'
  | 116 => some '\t'
  | 114 => some '\r'
  | 98 => some (Char.ofNat 8)
  | 102 => some (Char.ofNat 12)
  | _ => none

/-- Parse the characters of a JSON string literal after its opening
quote, returning the decoded characters and the rest of the input. -/
def parseStrChars (fuel : Nat) (cs : List Char) : Option (List Char × List Char) :=
  match fuel, cs with
  | 0, _ => none
  | _, [] => none
  | fuel + 1, c :: rest =>
    if c == '"' then some ([], rest)
    else if c == '\\' then
      match rest with
      | [] => none
      | e :: rest2 =>
        match escChar e with
        | none => none
        | some d =>
          match parseStrChars fuel rest2 with
          | none => none
          | some (s, r) => some (d :: s, r)
    else if c.toNat < 32 then none
    else
      match parseStrChars fuel rest with
      | none => none
      | some (s, r) => some (c :: s, r)

/-- Numeric value of a decimal digit run. -/
def digitsToNat (ds : List Char) : Nat :=
  ds.foldl (fun a c => a * 10 + (c.toNat - 48)) 0

/-- Parse a JSON integer numeral (optional sign, no leading zeros,
no fraction/exponent in the modelled fragment). -/
def parseNumber (cs : List Char) : Option (Int × List Char) :=
  let signed := match cs with
    | '-' :: r => (true, r)
    | _ => (false, cs)
  let ds := signed.2.span Char.isDigit
  match ds.1 with
  | [] => none
  | [c] =>
    let n : Int := Int.ofNat (c.toNat - 48)
    some (if signed.1 then -n else n, ds.2)
  | c :: _ :: _ =>
    if c == '0' then none
    else
      let n : Int := Int.ofNat (digitsToNat ds.1)
      some (if signed.1 then -n else n, ds.2)

/-- Consume an expected literal character sequence. -/
def stripChars : List Char → List Char → Option (List Char)
  | [], cs => some cs
  | p :: ps, c :: cs => if c == p then stripChars ps cs else none
  | _ :: _, [] => none

mutual

/-- Recursive-descent parser for one JSON value, fuel-bounded. -/
def parseValue (fuel : Nat) (cs : List Char) : Option (Json × List Char) :=
  match fuel with
  | 0 => none
  | fuel + 1 =>
    match skipWs cs with
    | [] => none
    | c :: rest =>
      if c == 'n' then
        match stripChars ['u', 'l', 'l'] rest with
        | some r => some (.null, r)
        | none => none
      else if c == 't' then
        match stripChars ['r', 'u', 'e'] rest with
        | some r => some (.bool true, r)
        | none => none
      else if c == 'f' then
        match stripChars ['a', 'l', 's', 'e'] rest with
        | some r => some (.bool false, r)
        | none => none
      else if c == '"' then
        match parseStrChars fuel rest with
        | some (s, r) => some (.str (String.mk s), r)
        | none => none
      else if c == '[' then
        match skipWs rest with
        | ']' :: r => some (.arr [], r)
        | _ =>
          match parseArrItems fuel rest with
          | some (vs, r) => some (.arr vs, r)
          | none => none
      else if c == '\x7b' then
        match skipWs rest with
        | d :: r =>
          if d == '\x7d' then some (.obj [], r)
          else
            match parseObjItems fuel (d :: r) with
            | some (ps, r2) => some (.obj (dedupFields ps), r2)
            | none => none
        | [] => none
      else if c == '-' || c.isDigit then
        match parseNumber (c :: rest) with
        | some (n, r) => some (.num n, r)
        | none => none
      else none

/-- Comma-separated array elements up to the closing bracket. -/
def parseArrItems (fuel : Nat) (cs : List Char) : Option (List Json × List Char) :=
  match fuel with
  | 0 => none
  | fuel + 1 =>
    match parseValue fuel cs with
    | none => none
    | some (v, r) =>
      match skipWs r with
      | ',' :: r2 =>
        match parseArrItems fuel r2 with
        | some (vs, r3) => some (v :: vs, r3)
        | none => none
      | ']' :: r2 => some ([v], r2)
      | _ => none

/-- Comma-separated object members up to the closing brace. -/
def parseObjItems (fuel : Nat) (cs : List Char) : Option (List (String × Json) × List Char) :=
  match fuel with
  | 0 => none
  | fuel + 1 =>
    match skipWs cs with
    | '"' :: r =>
      match parseStrChars fuel r with
      | none => none
      | some (kcs, r2) =>
        match skipWs r2 with
        | ':' :: r3 =>
          match parseValue fuel r3 with
          | none => none
          | some (v, r4) =>
            match skipWs r4 with
            | ',' :: r5 =>
              match parseObjItems fuel r5 with
              | some (ps, r6) => some ((String.mk kcs, v) :: ps, r6)
              | none => none
            | d :: r5 =>
              if d == '\x7d' then some ([(String.mk kcs, v)], r5) else none
            | [] => none
        | _ => none
    | _ => none

end

/-- `JSON.parse` on a whole text: one value, optionally surrounded by
whitespace; anything else is a syntax error (`none`). -/
def jsonParse (t : String) : Option Json :=
  match parseValue (4 * t.length + 8) t.data with
  | some (j, rest) =>
    match skipWs rest with
    | [] => some j
    | _ => none
  | none => none

/-- Hexadecimal digit character. -/
def hexDigit (n : Nat) : Char :=
  if n < 10 then Char.ofNat (48 + n) else Char.ofNat (97 + n - 10)

/-- Four-digit lowercase hex rendering used by `\u` escapes. -/
def hex4 (n : Nat) : String :=
  String.mk [hexDigit (n / 4096 % 16), hexDigit (n / 256 % 16),
             hexDigit (n / 16 % 16), hexDigit (n % 16)]

/-- Escape the characters of a string for a JSON string literal, as
`JSON.stringify` does. -/
def escapeChars : List Char → String
  | [] => ""
  | c :: cs =>
    (if c == '"' then "\\\""
     else if c == '\\' then "\\\\"
     else if c == '\n' then "\\n"
     else if c == '\t' then "\\t"
     else if c == '\r' then "\\r"
     else if c.toNat == 8 then "\\b"
     else if c.toNat == 12 then "\\f"
     else if c.toNat < 32 then "\\u" ++ hex4 c.toNat
     else String.singleton c) ++ escapeChars cs

/-- A quoted, escaped JSON string literal. -/
def quoteStr (s : String) : String :=
  "\"" ++ escapeChars s.data ++ "\""

mutual

/-- `JSON.stringify` (no indentation, as called by the component). -/
def printJson : Json → String
  | .null => "null"
  | .bool true => "true"
  | .bool false => "false"
  | .num n => toString n
  | .str s => quoteStr s
  | .arr xs => "[" ++ printArr xs ++ "]"
  | .obj fs => String.singleton '\x7b' ++ printObj fs ++ String.singleton '\x7d'

/-- Comma-joined serialized array elements. -/
def printArr : List Json → String
  | [] => ""
  | [x] => printJson x
  | x :: y :: xs => printJson x ++ "," ++ printArr (y :: xs)

/-- Comma-joined serialized object members. -/
def printObj : List (String × Json) → String
  | [] => ""
  | [(k, v)] => quoteStr k ++ ":" ++ printJson v
  | (k, v) :: m :: fs => quoteStr k ++ ":" ++ printJson v ++ "," ++ printObj (m :: fs)

end

example : jsonParse "null" = some Json.null := by rfl
example : jsonParse "" = none := by rfl
example : jsonParse " \x7b\"a\": 1, \"b\": [true, \"x\"]\x7d " =
    some (.obj [("a", .num 1), ("b", .arr [.bool true, .str "x"])]) := by rfl
example : jsonParse "\x7b\"result\":\"\x7b\\\"verdict\\\":\\\"SUPPORTED\\\"\x7d\"\x7d" =
    some (.obj [("result", .str "\x7b\"verdict\":\"SUPPORTED\"\x7d")]) := by rfl
example : printJson (.obj [("q", .str "a\"b"), ("n", .num (-3))]) =
    "\x7b\"q\":\"a\\\"b\",\"n\":-3\x7d" := by rfl

mutual

/-- JavaScript `String()` coercion of a JSON value (`Error` messages and
the argument coercion of `JSON.parse` use it). -/
def jsToString : Json → String
  | .null => "null"
  | .bool true => "true"
  | .bool false => "false"
  | .num n => toString n
  | .str s => s
  | .arr xs => arrJoinText xs
  | .obj _ => "[object Object]"

/-- `Array.prototype.toString`: elements coerced and comma-joined, with
`null` elements rendered empty. -/
def arrJoinText : List Json → String
  | [] => ""
  | [x] => if x = Json.null then "" else jsToString x
  | x :: y :: xs =>
    (if x = Json.null then "" else jsToString x) ++ "," ++ arrJoinText (y :: xs)

end

/-- True when `s.trim()` is empty, i.e. every character is whitespace;
this is the exact guard `if (!question.trim()) return` tests. -/
def trimmedEmpty (s : String) : Bool :=
  s.data.all fun c =>
    c == ' ' || c == '\t' || c == '\n' || c == '\r' ||
    c == '\x0b' || c == '\x0c'

/-- localStorage key of the persisted session slot. -/
def STORAGE_KEY : String := "rag-ui-state-v1"

/-- Fixed head of every Query failure message (line 82), the template
text before the interpolated error message. -/
def queryFailMsgStart : String := "❌ Query failed: "

/-- Fixed head of every FactCheck failure message (line 117). -/
def factFailMsgStart : String := "❌ Fact check failed: "

/-- Placeholder written when a successful query body has no answer
(line 80). -/
def noAnswerText : String := "No answer returned."

/-- Modelled message of the engine SyntaxError thrown by a failed
`JSON.parse`; the code only ever concatenates it after a fixed head. -/
def jsonSyntaxMsg : String := "Unexpected token in JSON"

/-- Modelled message of the engine TypeError thrown by reading property
`k` of `null`. -/
def nullReadMsg (k : String) : String :=
  "Cannot read properties of null reading " ++ k

/-- The fact-check result record the component stores
(`setFactResult(\x7bverdict: ..., reason: ..., evidence: ...\x7d)`);
`verdict`/`reason` are whatever JSON values the inner payload carried
(`none` models JavaScript `undefined` when the field is missing). -/
structure FactResultJs where
  verdict : Option Json
  reason : Option Json
  evidence : Json
deriving DecidableEq, Repr

/-- The component state: the four persisted fields (`question`,
`answer`, `claim`, `factResult`) and the two ephemeral request phases
(`loading`/`status` for Query, `factLoading`/`factError` for
FactCheck).  `status` is the Query error slot, the empty string meaning
absent, exactly as in the component; `answer` is `Json` because
`setAnswer(data.answer ?? ...)` stores whatever JSON value the body
carried. -/
structure AppState where
  question : String
  answer : Json
  loading : Bool
  status : String
  claim : String
  factResult : Option FactResultJs
  factLoading : Bool
  factError : Option String
deriving DecidableEq, Repr

/-- Initial component state (the `useState` initializers). -/
def initialAppState : AppState :=
  { question := "", answer := .str "", loading := false, status := ""
  , claim := "", factResult := none, factLoading := false, factError := none }

/-- Outcome of one `fetch` call: either the promise rejects (network
error with the rejection message) or an HTTP response arrives with
`res.ok` (status 2xx) and its body text. -/
inductive FetchOutcome where
  | networkError : String → FetchOutcome
  | reply : Bool → String → FetchOutcome
deriving DecidableEq, Repr

/-- Error text for a non-2xx response with parsed non-null body `data`:
`data.detail || JSON.stringify(data)` (lines 77 and 106). -/
def detailOrBodyText (data : Json) : String :=
  match jsGet data "detail" with
  | some d => if jsTruthy d then jsToString d else printJson data
  | none => printJson data

/-- `handleQuery` (lines 62–85) as a pure function of the pre-call
component state and the fetch outcome, returning the settled state. -/
def handleQuery (s : AppState) (o : FetchOutcome) : AppState :=
  if trimmedEmpty s.question then s
  else
    let s1 : AppState := { s with loading := true, answer := .str "", status := "" }
    let s2 : AppState :=
      match o with
      | .networkError msg => { s1 with status := queryFailMsgStart ++ msg }
      | .reply ok body =>
        match jsonParse body with
        | none => { s1 with status := queryFailMsgStart ++ jsonSyntaxMsg }
        | some Json.null =>
          if ok then { s1 with status := queryFailMsgStart ++ nullReadMsg "answer" }
          else { s1 with status := queryFailMsgStart ++ nullReadMsg "detail" }
        | some data =>
          if ok then
            match jsGet data "answer" with
            | some v =>
              if v = Json.null then { s1 with answer := .str noAnswerText }
              else { s1 with answer := v }
            | none => { s1 with answer := .str noAnswerText }
          else { s1 with status := queryFailMsgStart ++ detailOrBodyText data }
    { s2 with loading := false }

/-- The record `handleFactCheck` stores on success from the inner parsed
value (lines 111–115), `evidence` defaulting to `[]` when falsy or
missing. -/
def mkFactResult (parsed : Json) : FactResultJs :=
  { verdict := jsGet parsed "verdict"
  , reason := jsGet parsed "reason"
  , evidence :=
      match jsGet parsed "evidence" with
      | some e => if jsTruthy e then e else .arr []
      | none => .arr [] }

/-- `handleFactCheck` (lines 87–121) as a pure function of the pre-call
component state and the fetch outcome.  The inner stage re-parses
`data.result` (coerced to a string, as `JSON.parse` does) a second
time. -/
def handleFactCheck (s : AppState) (o : FetchOutcome) : AppState :=
  if trimmedEmpty s.claim then s
  else
    let s1 : AppState :=
      { s with factLoading := true, factError := none, factResult := none }
    let s2 : AppState :=
      match o with
      | .networkError msg =>
        { s1 with factError := some (factFailMsgStart ++ msg) }
      | .reply ok body =>
        match jsonParse body with
        | none => { s1 with factError := some (factFailMsgStart ++ jsonSyntaxMsg) }
        | some Json.null =>
          if ok then
            { s1 with factError := some (factFailMsgStart ++ nullReadMsg "result") }
          else
            { s1 with factError := some (factFailMsgStart ++ nullReadMsg "detail") }
        | some data =>
          if ok then
            let rtext :=
              match jsGet data "result" with
              | some v => jsToString v
              | none => "undefined"
            match jsonParse rtext with
            | none =>
              { s1 with factError := some (factFailMsgStart ++ jsonSyntaxMsg) }
            | some Json.null =>
              { s1 with factError := some (factFailMsgStart ++ nullReadMsg "verdict") }
            | some parsed =>
              { s1 with factResult := some (mkFactResult parsed) }
          else
            { s1 with factError := some (factFailMsgStart ++ detailOrBodyText data) }
    { s2 with factLoading := false }

/-- The mirror of the four persisted fields as stored by the hydrate
effect, before any shape validation: each field holds whatever JSON
value the setters received. -/
structure JsState where
  question : Json
  answer : Json
  claim : Json
  factResult : Json
deriving DecidableEq, Repr

/-- The defaults the four fields start from (`''`, `''`, `''`, `null`). -/
def defaultJsState : JsState :=
  { question := .str "", answer := .str "", claim := .str "", factResult := .null }

/-- `v || d` on an optional JavaScript value (`none` = `undefined`). -/
def truthyOr (v : Option Json) (d : Json) : Json :=
  match v with
  | some x => if jsTruthy x then x else d
  | none => d

/-- The hydrate effect (lines 34–48) as a function of the stored slot
content (`none` when `localStorage.getItem` returns null): `if (!raw)
return`, `JSON.parse(raw)` with corrupt content silently ignored, then
per-field `saved.f || default` setters. -/
def hydrateState (raw : Option String) : JsState :=
  match raw with
  | none => defaultJsState
  | some t =>
    if t = "" then defaultJsState
    else
      match jsonParse t with
      | none => defaultJsState
      | some Json.null => defaultJsState
      | some j =>
        { question := truthyOr (jsGet j "question") (.str "")
        , answer := truthyOr (jsGet j "answer") (.str "")
        , claim := truthyOr (jsGet j "claim") (.str "")
        , factResult := truthyOr (jsGet j "factResult") .null }

/-- The fact-check result type of the source (`type FactResult`,
lines 7–11). -/
structure FactResult where
  verdict : String
  reason : String
  evidence : List String
deriving DecidableEq, Repr

/-- The persisted session type of the source (`type PersistedState`,
lines 13–18). -/
structure PersistedState where
  question : String
  answer : String
  claim : String
  factResult : Option FactResult
deriving DecidableEq, Repr

/-- JSON encoding of a `FactResult` value. -/
def encodeFactResult (f : FactResult) : Json :=
  .obj [("verdict", .str f.verdict), ("reason", .str f.reason),
        ("evidence", .arr (f.evidence.map Json.str))]

/-- The JSON value the persist effect (lines 51–60) serializes: the
full four-field object, built fresh on every change. -/
def persistedStateJson (s : PersistedState) : Json :=
  .obj [("question", .str s.question), ("answer", .str s.answer),
        ("claim", .str s.claim),
        ("factResult",
          match s.factResult with
          | some f => encodeFactResult f
          | none => .null)]

/-- The exact text the persist effect writes to the slot:
`JSON.stringify(stateToSave)`. -/
def stateToSave (s : PersistedState) : String :=
  printJson (persistedStateJson s)

/-- A well-typed `PersistedState` viewed as raw field values. -/
def persistedToJsState (s : PersistedState) : JsState :=
  { question := .str s.question, answer := .str s.answer, claim := .str s.claim
  , factResult :=
      match s.factResult with
      | some f => encodeFactResult f
      | none => .null }

/-- Strict decoder of the `PersistedState` TypeScript shape: all four
fields present with their declared types (`factResult` null or a
`FactResult` with string verdict/reason and string-array evidence). -/
def decodeStr : Json → Option String
  | .str s => some s
  | _ => none

/-- Decode a JSON array of strings. -/
def decodeStrList : Json → Option (List String)
  | .arr xs =>
    xs.foldr
      (fun x acc =>
        match x, acc with
        | .str s, some l => some (s :: l)
        | _, _ => none)
      (some [])
  | _ => none

/-- Decode the `FactResult` shape. -/
def decodeFactResult (j : Json) : Option FactResult :=
  match jsGet j "verdict", jsGet j "reason", jsGet j "evidence" with
  | some v, some r, some e =>
    match decodeStr v, decodeStr r, decodeStrList e with
    | some vs, some rs, some es => some ⟨vs, rs, es⟩
    | _, _, _ => none
  | _, _, _ => none

/-- Decode the full `PersistedState` shape. -/
def decodePersistedState (j : Json) : Option PersistedState :=
  match jsGet j "question", jsGet j "answer", jsGet j "claim", jsGet j "factResult" with
  | some q, some a, some c, some f =>
    match decodeStr q, decodeStr a, decodeStr c with
    | some qs, some as', some cs =>
      match f with
      | .null => some ⟨qs, as', cs, none⟩
      | _ =>
        match decodeFactResult f with
        | some fr => some ⟨qs, as', cs, some fr⟩
        | none => none
    | _, _, _ => none
  | _, _, _, _ => none

/-- Presentation categories of the verdict badge. -/
inductive VerdictCategory where
  | positive : VerdictCategory
  | negative : VerdictCategory
  | neutral : VerdictCategory
deriving DecidableEq, Repr

/-- The verdict badge classification (lines 282–291): the chained
strict-equality ternary on `factResult.verdict`. -/
def verdictClass (v : Json) : VerdictCategory :=
  if v = .str "SUPPORTED" then .positive
  else if v = .str "REFUTED" then .negative
  else .neutral

/-- The failing fetch outcomes the spec names: network error, non-2xx
status, or a body that is not parseable JSON. -/
def callFails (o : FetchOutcome) : Bool :=
  match o with
  | .networkError _ => true
  | .reply ok body => !ok || (jsonParse body).isNone

/-- A session mid-use: prior answer and prior fact-check result present,
both inputs non-blank. -/
def sampleState : AppState :=
  { question := "q", answer := .str "old", loading := false, status := ""
  , claim := "c"
  , factResult := some ⟨some (.str "SUPPORTED"), some (.str "prior reason"),
      .arr [.str "prior evidence"]⟩
  , factLoading := false, factError := none }

/-- A state whose two inputs are whitespace-only. -/
def blankInputState : AppState :=
  { sampleState with question := "  ", claim := " " }

/-- A concrete well-typed persisted session. -/
def samplePersisted : PersistedState :=
  ⟨"q1", "a1", "c1", some ⟨"SUPPORTED", "prior", ["e1"]⟩⟩

/-- Claim C7: verdict classification is a total pure function from the
verdict string to a presentation category: "SUPPORTED" maps to the
positive category, "REFUTED" to the negative one, and every other
string to the neutral one. -/
theorem claim_C7_verdict_classification :
    verdictClass (.str "SUPPORTED") = .positive ∧
    verdictClass (.str "REFUTED") = .negative ∧
    ∀ v : String, v ≠ "SUPPORTED" → v ≠ "REFUTED" →
      verdictClass (.str v) = .neutral := by
  refine ⟨rfl, rfl, ?_⟩
  intro v h1 h2
  simp [verdictClass, h1, h2]

/-- Claim C7 witness: an unrecognized verdict string lands in the
neutral category. -/
theorem claim_C7_witness :
    verdictClass (.str "NOT_ENOUGH_INFO") = .neutral :=
  claim_C7_verdict_classification.2.2 "NOT_ENOUGH_INFO" (by decide) (by decide)

/-- Claim C8: on an empty or whitespace-only input, the operation is a
no-op for every possible fetch outcome: the busy flag never
transitions and no state field changes (the outcome being irrelevant
reflects that no HTTP call is issued). -/
theorem claim_C8_noop_on_blank :
    ∀ (s : AppState) (o : FetchOutcome),
      (trimmedEmpty s.question = true → handleQuery s o = s) ∧
      (trimmedEmpty s.claim = true → handleFactCheck s o = s) := by
  intro s o
  constructor
  · intro h; simp [handleQuery, h]
  · intro h; simp [handleFactCheck, h]

/-- Claim C8 witness: a whitespace-only question and claim leave the
state untouched. -/
theorem claim_C8_witness :
    handleQuery blankInputState (.networkError "x") = blankInputState ∧
    handleFactCheck blankInputState (.networkError "x") = blankInputState :=
  ⟨(claim_C8_noop_on_blank blankInputState (.networkError "x")).1 rfl,
   (claim_C8_noop_on_blank blankInputState (.networkError "x")).2 rfl⟩

/-- Claim C9: after every settlement of submitQuery or submitFactCheck
(success, HTTP failure, or parse failure — i.e. for every fetch
outcome), the busy flag of the operation is false. -/
theorem claim_C9_busy_cleared :
    ∀ (s : AppState) (o : FetchOutcome),
      (trimmedEmpty s.question = false → (handleQuery s o).loading = false) ∧
      (trimmedEmpty s.claim = false → (handleFactCheck s o).factLoading = false) := by
  intro s o
  constructor
  · intro h; simp [handleQuery, h]
  · intro h; simp [handleFactCheck, h]

/-- Claim C9 witness: a network failure still clears both busy flags. -/
theorem claim_C9_witness :
    (handleQuery sampleState (.networkError "x")).loading = false ∧
    (handleFactCheck sampleState (.networkError "x")).factLoading = false :=
  ⟨(claim_C9_busy_cleared sampleState (.networkError "x")).1 rfl,
   (claim_C9_busy_cleared sampleState (.networkError "x")).2 rfl⟩

/-- Claim C1 counterexample: the claim that a failed call leaves the
persisted result field unchanged is false — handleQuery clears `answer`
and handleFactCheck clears `factResult` at the start of the operation,
so after a failing call the prior values are gone. -/
theorem claim_C1_counterexample :
    (handleQuery sampleState (.networkError "boom")).answer ≠
      sampleState.answer ∧
    (handleFactCheck sampleState (.networkError "boom")).factResult ≠
      sampleState.factResult := by
  exact ⟨by decide, by decide⟩

/-- Claim C1 amended: on every failing call (network error, non-2xx, or
unparseable body) the failure branch writes only the ephemeral error
slot; however the operation cleared its persisted result field when it
started, so the settled state has `answer` equal to the empty string
(for submitQuery) and `factResult` absent (for submitFactCheck) rather
than the pre-call values; the other persisted fields are untouched. -/
theorem claim_C1_amended :
    ∀ (s : AppState) (o : FetchOutcome),
      callFails o = true →
      (trimmedEmpty s.question = false →
        (handleQuery s o).answer = .str "" ∧
        (∃ m, (handleQuery s o).status = queryFailMsgStart ++ m) ∧
        (handleQuery s o).question = s.question ∧
        (handleQuery s o).claim = s.claim ∧
        (handleQuery s o).factResult = s.factResult) ∧
      (trimmedEmpty s.claim = false →
        (handleFactCheck s o).factResult = none ∧
        (∃ m, (handleFactCheck s o).factError = some (factFailMsgStart ++ m)) ∧
        (handleFactCheck s o).question = s.question ∧
        (handleFactCheck s o).claim = s.claim ∧
        (handleFactCheck s o).answer = s.answer) := by
  intro s o hf
  cases o with
  | networkError msg =>
    constructor
    · intro h
      refine ⟨?_, ⟨msg, ?_⟩, ?_, ?_, ?_⟩ <;> simp [handleQuery, h]
    · intro h
      refine ⟨?_, ⟨msg, ?_⟩, ?_, ?_, ?_⟩ <;> simp [handleFactCheck, h]
  | reply ok body =>
    cases hp : jsonParse body with
    | none =>
      constructor
      · intro h
        refine ⟨?_, ⟨jsonSyntaxMsg, ?_⟩, ?_, ?_, ?_⟩ <;>
          simp [handleQuery, h, hp]
      · intro h
        refine ⟨?_, ⟨jsonSyntaxMsg, ?_⟩, ?_, ?_, ?_⟩ <;>
          simp [handleFactCheck, h, hp]
    | some data =>
      have hok : ok = false := by
        simp [callFails, hp] at hf
        exact hf
      subst hok
      constructor
      · intro h
        by_cases hn : data = Json.null
        · subst hn
          refine ⟨?_, ⟨nullReadMsg "detail", ?_⟩, ?_, ?_, ?_⟩ <;>
            simp [handleQuery, h, hp]
        · refine ⟨?_, ⟨detailOrBodyText data, ?_⟩, ?_, ?_, ?_⟩ <;>
            simp [handleQuery, h, hp, hn]
      · intro h
        by_cases hn : data = Json.null
        · subst hn
          refine ⟨?_, ⟨nullReadMsg "detail", ?_⟩, ?_, ?_, ?_⟩ <;>
            simp [handleFactCheck, h, hp]
        · refine ⟨?_, ⟨detailOrBodyText data, ?_⟩, ?_, ?_, ?_⟩ <;>
            simp [handleFactCheck, h, hp, hn]

/-- Claim C1 witness: a network failure settles with the query answer
cleared to the empty string and the fact result cleared to absent. -/
theorem claim_C1_witness :
    (handleQuery sampleState (.networkError "boom")).answer = .str "" ∧
    (handleFactCheck sampleState (.networkError "boom")).factResult = none :=
  ⟨((claim_C1_amended sampleState (.networkError "boom") rfl).1 rfl).1,
   ((claim_C1_amended sampleState (.networkError "boom") rfl).2 rfl).1⟩

/-- The degenerate backend reply the spec mentions: HTTP 2xx with a body
carrying only a `detail` field. -/
def detailBodyText : String := "\x7b\"detail\":\"oops\"\x7d"

/-- Claim C2 counterexample: a 2xx response whose body contains a
`detail` field is NOT treated as a failure — the error slot stays empty
and an answer (the placeholder) is written.  The `detail` check at line
77 is only reached when the status is non-2xx. -/
theorem claim_C2_counterexample :
    jsonParse detailBodyText = some (.obj [("detail", .str "oops")]) ∧
    (handleQuery sampleState (.reply true detailBodyText)).status = "" ∧
    (handleQuery sampleState (.reply true detailBodyText)).answer =
      .str noAnswerText := by
  exact ⟨rfl, rfl, rfl⟩

/-- Claim C2 amended: submitQuery treats a response as a failure exactly
when the HTTP status is non-2xx (besides network errors and unparseable
bodies); a 2xx response is processed as success even when its body
contains a `detail` field — the `detail` field only shapes the error
message of the non-2xx case.  (The body that is literal JSON null is
the lone degenerate 2xx case, erroring through null property access.) -/
theorem claim_C2_amended :
    ∀ (s : AppState) (body : String) (data : Json),
      trimmedEmpty s.question = false →
      jsonParse body = some data → data ≠ .null →
      (handleQuery s (.reply true body)).status = "" ∧
      ∃ m, (handleQuery s (.reply false body)).status = queryFailMsgStart ++ m := by
  intro s body data h hp hn
  constructor
  · cases hq : jsGet data "answer" with
    | none => simp [handleQuery, h, hp, hn, hq]
    | some v =>
      by_cases hv : v = Json.null
      · subst hv; simp [handleQuery, h, hp, hn, hq]
      · simp [handleQuery, h, hp, hn, hq, hv]
  · exact ⟨detailOrBodyText data, by simp [handleQuery, h, hp, hn]⟩

/-- Claim C2 witness: with a 2xx reply whose body is only a `detail`
field, the error slot is absent, while the same body on a non-2xx
reply produces an error message. -/
theorem claim_C2_witness :
    (handleQuery sampleState (.reply true detailBodyText)).status = "" ∧
    ∃ m, (handleQuery sampleState (.reply false detailBodyText)).status =
      queryFailMsgStart ++ m :=
  claim_C2_amended sampleState detailBodyText (.obj [("detail", .str "oops")])
    rfl rfl (by decide)

/-- Claim C3 counterexample: the body that is literal JSON null is a
parseable 2xx body with no `answer` field, yet the placeholder is NOT
persisted and the error slot is NOT absent: `data.answer` on null
throws, the catch sets the error slot, and `answer` is left at the
cleared empty string. -/
theorem claim_C3_counterexample :
    jsonParse "null" = some Json.null ∧
    (handleQuery sampleState (.reply true "null")).answer = .str "" ∧
    (handleQuery sampleState (.reply true "null")).status ≠ "" := by
  exact ⟨rfl, rfl, by decide⟩

/-- Claim C3 amended: for every non-empty trimmed question and every
2xx reply with a parseable JSON body other than literal null, the
`answer` field of the body is written to the persisted `answer` (a
response with answer "X" persists "X") and the error slot ends absent;
when the `answer` field is absent the fixed placeholder
"No answer returned." is persisted instead.  (On the literal-null body
the property access fails: the error slot is set and `answer` stays
cleared.) -/
theorem claim_C3_amended :
    ∀ (s : AppState) (body : String) (data : Json),
      trimmedEmpty s.question = false →
      jsonParse body = some data → data ≠ .null →
      (handleQuery s (.reply true body)).status = "" ∧
      (∀ v, jsGet data "answer" = some v → v ≠ .null →
        (handleQuery s (.reply true body)).answer = v) ∧
      (jsGet data "answer" = none →
        (handleQuery s (.reply true body)).answer = .str noAnswerText) := by
  intro s body data h hp hn
  refine ⟨?_, ?_, ?_⟩
  · cases hq : jsGet data "answer" with
    | none => simp [handleQuery, h, hp, hn, hq]
    | some v =>
      by_cases hv : v = Json.null
      · subst hv; simp [handleQuery, h, hp, hn, hq]
      · simp [handleQuery, h, hp, hn, hq, hv]
  · intro v hq hv
    simp [handleQuery, h, hp, hn, hq, hv]
  · intro hq
    simp [handleQuery, h, hp, hn, hq]

/-- Claim C3 witness: a 2xx reply with body carrying answer "X"
persists answer "X" with the error slot absent, and a 2xx reply with a
body lacking the `answer` field persists the placeholder. -/
theorem claim_C3_witness :
    (handleQuery sampleState (.reply true "\x7b\"answer\":\"X\"\x7d")).answer =
      .str "X" ∧
    (handleQuery sampleState (.reply true "\x7b\"answer\":\"X\"\x7d")).status = "" ∧
    (handleQuery sampleState (.reply true "\x7b\"other\":1\x7d")).answer =
      .str noAnswerText :=
  ⟨(claim_C3_amended sampleState "\x7b\"answer\":\"X\"\x7d"
      (.obj [("answer", .str "X")]) rfl rfl (by decide)).2.1
      (.str "X") rfl (by decide),
   (claim_C3_amended sampleState "\x7b\"answer\":\"X\"\x7d"
      (.obj [("answer", .str "X")]) rfl rfl (by decide)).1,
   (claim_C3_amended sampleState "\x7b\"other\":1\x7d"
      (.obj [("other", .num 1)]) rfl rfl (by decide)).2.2 rfl⟩

/-- Claim C10 counterexample: on a non-2xx reply whose body is literal
JSON null the `detail` field is absent, yet the error message is not
the fixed head followed by the JSON-serialization of the body
("null"): reading `detail` of null throws first and the catch reports
that TypeError instead. -/
theorem claim_C10_counterexample :
    jsonParse "null" = some Json.null ∧
    (handleQuery sampleState (.reply false "null")).status ≠
      queryFailMsgStart ++ printJson Json.null ∧
    (handleQuery sampleState (.reply false "null")).status =
      queryFailMsgStart ++ nullReadMsg "detail" := by
  exact ⟨rfl, by decide, rfl⟩

/-- Claim C10 amended: in both operations, on a non-2xx reply with a
parseable body other than literal null, the error message incorporates
the body's `detail` field exactly when `detail` is truthy; when
`detail` is absent or falsy (e.g. the empty string) the
JSON-serialization of the entire body follows the fixed head instead.
(On the literal-null body the `detail` read itself fails and the
caught TypeError is reported.) -/
theorem claim_C10_amended :
    ∀ (s : AppState) (body : String) (data : Json),
      trimmedEmpty s.question = false →
      trimmedEmpty s.claim = false →
      jsonParse body = some data → data ≠ .null →
      (∀ d, jsGet data "detail" = some d → jsTruthy d = true →
        (handleQuery s (.reply false body)).status =
          queryFailMsgStart ++ jsToString d ∧
        (handleFactCheck s (.reply false body)).factError =
          some (factFailMsgStart ++ jsToString d)) ∧
      (jsGet data "detail" = none →
        (handleQuery s (.reply false body)).status =
          queryFailMsgStart ++ printJson data ∧
        (handleFactCheck s (.reply false body)).factError =
          some (factFailMsgStart ++ printJson data)) ∧
      (∀ d, jsGet data "detail" = some d → jsTruthy d = false →
        (handleQuery s (.reply false body)).status =
          queryFailMsgStart ++ printJson data ∧
        (handleFactCheck s (.reply false body)).factError =
          some (factFailMsgStart ++ printJson data)) := by
  intro s body data hq hc hp hn
  refine ⟨?_, ?_, ?_⟩
  · intro d hd ht
    constructor
    · simp [handleQuery, hq, hp, hn, detailOrBodyText, hd, ht]
    · simp [handleFactCheck, hc, hp, hn, detailOrBodyText, hd, ht]
  · intro hd
    constructor
    · simp [handleQuery, hq, hp, hn, detailOrBodyText, hd]
    · simp [handleFactCheck, hc, hp, hn, detailOrBodyText, hd]
  · intro d hd ht
    constructor
    · simp [handleQuery, hq, hp, hn, detailOrBodyText, hd, ht]
    · simp [handleFactCheck, hc, hp, hn, detailOrBodyText, hd, ht]

/-- Claim C10 witness: a 500-style reply with detail "index unavailable"
surfaces exactly that text after the fixed head in both operations,
and the same reply without a `detail` field surfaces the serialized
body. -/
theorem claim_C10_witness :
    (handleQuery sampleState
      (.reply false "\x7b\"detail\":\"index unavailable\"\x7d")).status =
      queryFailMsgStart ++ "index unavailable" ∧
    (handleQuery sampleState (.reply false "\x7b\"a\":1\x7d")).status =
      queryFailMsgStart ++ printJson (.obj [("a", .num 1)]) :=
  ⟨((claim_C10_amended sampleState "\x7b\"detail\":\"index unavailable\"\x7d"
      (.obj [("detail", .str "index unavailable")]) rfl rfl rfl (by decide)).1
      (.str "index unavailable") rfl rfl).1,
   ((claim_C10_amended sampleState "\x7b\"a\":1\x7d"
      (.obj [("a", .num 1)]) rfl rfl rfl (by decide)).2.1 rfl).1⟩

/-- The spec's fact-check scenario reply: the outer body carries a
`result` field that is itself JSON text. -/
def factBodyText : String :=
  "\x7b\"result\":\"\x7b\\\"verdict\\\":\\\"SUPPORTED\\\",\\\"reason\\\":\\\"Confirmed by doc X\\\",\\\"evidence\\\":[\\\"doc X, p.2\\\"]\x7d\"\x7d"

/-- The inner JSON text carried by `factBodyText`. -/
def factInnerText : String :=
  "\x7b\"verdict\":\"SUPPORTED\",\"reason\":\"Confirmed by doc X\",\"evidence\":[\"doc X, p.2\"]\x7d"

/-- The parse of `factBodyText`. -/
def factBodyJson : Json := .obj [("result", .str factInnerText)]

/-- The parse of `factInnerText`. -/
def factInnerJson : Json :=
  .obj [("verdict", .str "SUPPORTED"), ("reason", .str "Confirmed by doc X"),
        ("evidence", .arr [.str "doc X, p.2"])]

/-- Claim C4: submitFactCheck decodes a 2xx response in two stages —
the outer body's `result` field is itself parsed a second time as JSON;
on success the parsed record is written to the persisted `factResult`
(with `evidence` defaulted to the empty sequence when absent) and the
error slot ends absent; a parse failure at either stage sets the
ephemeral error slot with the same fixed head used for HTTP
failures. -/
theorem claim_C4_two_stage_decode :
    ∀ (s : AppState) (body rs : String) (data parsed : Json),
      trimmedEmpty s.claim = false →
      (jsonParse body = some data → data ≠ .null →
        jsGet data "result" = some (.str rs) →
        ((jsonParse rs = some parsed → parsed ≠ .null →
          (handleFactCheck s (.reply true body)).factResult =
            some (mkFactResult parsed) ∧
          (handleFactCheck s (.reply true body)).factError = none) ∧
         (jsonParse rs = none →
          (handleFactCheck s (.reply true body)).factError =
            some (factFailMsgStart ++ jsonSyntaxMsg) ∧
          (handleFactCheck s (.reply true body)).factResult = none))) ∧
      (jsonParse body = none →
        (handleFactCheck s (.reply true body)).factError =
          some (factFailMsgStart ++ jsonSyntaxMsg)) ∧
      (jsonParse body = some data → data ≠ .null →
        ∃ m, (handleFactCheck s (.reply false body)).factError =
          some (factFailMsgStart ++ m)) ∧
      (∀ p : Json, jsGet p "evidence" = none →
        (mkFactResult p).evidence = .arr []) := by
  intro s body rs data parsed h
  refine ⟨?_, ?_, ?_, ?_⟩
  · intro hp hn hr
    constructor
    · intro hip hin
      constructor
      · simp [handleFactCheck, h, hp, hn, hr, jsToString, hip, hin]
      · simp [handleFactCheck, h, hp, hn, hr, jsToString, hip, hin]
    · intro hip
      constructor
      · simp [handleFactCheck, h, hp, hn, hr, jsToString, hip]
      · simp [handleFactCheck, h, hp, hn, hr, jsToString, hip]
  · intro hp
    simp [handleFactCheck, h, hp]
  · intro hp hn
    by_cases hd : data = Json.null
    · exact absurd hd hn
    · exact ⟨detailOrBodyText data, by simp [handleFactCheck, h, hp, hd]⟩
  · intro p hp
    simp [mkFactResult, hp]

set_option maxRecDepth 8000 in
/-- Claim C4 witness: the spec's scenario — the double-encoded
SUPPORTED verdict — persists the parsed record with its evidence list,
with the error slot absent, and an unparseable inner payload surfaces
the fixed-head error. -/
theorem claim_C4_witness :
    (handleFactCheck sampleState (.reply true factBodyText)).factResult =
      some ⟨some (.str "SUPPORTED"), some (.str "Confirmed by doc X"),
        .arr [.str "doc X, p.2"]⟩ ∧
    (handleFactCheck sampleState (.reply true factBodyText)).factError = none ∧
    (handleFactCheck sampleState
      (.reply true "\x7b\"result\":\"nope\x7d\"\x7d")).factError =
      some (factFailMsgStart ++ jsonSyntaxMsg) :=
  ⟨(((claim_C4_two_stage_decode sampleState factBodyText factInnerText
        factBodyJson factInnerJson rfl).1 rfl (by decide) rfl).1 rfl
        (by decide)).1.trans rfl,
   (((claim_C4_two_stage_decode sampleState factBodyText factInnerText
        factBodyJson factInnerJson rfl).1 rfl (by decide) rfl).1 rfl
        (by decide)).2,
   ((((claim_C4_two_stage_decode sampleState "\x7b\"result\":\"nope\x7d\"\x7d"
        "nope\x7d" (.obj [("result", .str "nope\x7d")]) Json.null rfl).1 rfl
        (by decide) rfl).2 rfl)).1⟩

/-- `truthyOr` restores a persisted string field exactly. -/
theorem truthyOr_str (q : String) :
    truthyOr (some (.str q)) (.str "") = .str q := by
  by_cases h : q = "" <;> simp [truthyOr, jsTruthy, h]

/-- Claim C5: persisting any well-typed SessionState and hydrating from
the resulting storage content yields the identical state; moreover the
persisted representation is a complete snapshot carrying all four
fields. -/
theorem claim_C5_roundtrip :
    ∀ (s : PersistedState) (raw : String),
      jsonParse raw = some (persistedStateJson s) →
      hydrateState (some raw) = persistedToJsState s ∧
      jsGet (persistedStateJson s) "question" = some (.str s.question) ∧
      jsGet (persistedStateJson s) "answer" = some (.str s.answer) ∧
      jsGet (persistedStateJson s) "claim" = some (.str s.claim) ∧
      jsGet (persistedStateJson s) "factResult" =
        some (persistedToJsState s).factResult := by
  intro s raw h
  have hraw : ¬ raw = "" := by
    intro he
    rw [he] at h
    exact Option.noConfusion h
  refine ⟨?_, by rfl, ?_, ?_, ?_⟩
  · rw [hydrateState, if_neg hraw, h]
    show JsState.mk _ _ _ _ = _
    have hfact :
        truthyOr (some (persistedToJsState s).factResult) Json.null =
          (persistedToJsState s).factResult := by
      cases hf : s.factResult with
      | none => simp [persistedToJsState, truthyOr, jsTruthy, hf]
      | some fr => simp [persistedToJsState, truthyOr, jsTruthy, hf, encodeFactResult]
    calc JsState.mk
          (truthyOr (jsGet (persistedStateJson s) "question") (.str ""))
          (truthyOr (jsGet (persistedStateJson s) "answer") (.str ""))
          (truthyOr (jsGet (persistedStateJson s) "claim") (.str ""))
          (truthyOr (jsGet (persistedStateJson s) "factResult") .null)
        = JsState.mk (.str s.question) (.str s.answer) (.str s.claim)
            (persistedToJsState s).factResult := by
          rw [show jsGet (persistedStateJson s) "question" = some (.str s.question)
                from rfl,
              show jsGet (persistedStateJson s) "answer" = some (.str s.answer)
                from rfl,
              show jsGet (persistedStateJson s) "claim" = some (.str s.claim)
                from rfl,
              show jsGet (persistedStateJson s) "factResult" =
                some (persistedToJsState s).factResult from rfl,
              truthyOr_str, truthyOr_str, truthyOr_str, hfact]
      _ = persistedToJsState s := by rfl
  · rfl
  · rfl
  · rfl

/-- Claim C5 witness: a concrete session round-trips through the exact
serialized text the persist effect writes. -/
theorem claim_C5_witness :
    hydrateState (some (stateToSave samplePersisted)) =
      persistedToJsState samplePersisted :=
  (claim_C5_roundtrip samplePersisted (stateToSave samplePersisted) rfl).1

/-- True exactly on JSON objects. -/
def isJsonObjB : Json → Bool
  | .obj _ => true
  | _ => false

/-- Claim C6 counterexample: a stored payload that is valid JSON but
fails to decode as the expected SessionState shape (a lone `question`
holding a number) does NOT leave all four fields at their defaults:
hydrate adopts the ill-typed field value as-is, because it defaults
per field instead of validating the shape. -/
theorem claim_C6_counterexample :
    jsonParse "\x7b\"question\": 42\x7d" = some (.obj [("question", .num 42)]) ∧
    decodePersistedState (.obj [("question", .num 42)]) = none ∧
    hydrateState (some "\x7b\"question\": 42\x7d") ≠ defaultJsState ∧
    (hydrateState (some "\x7b\"question\": 42\x7d")).question = .num 42 := by
  exact ⟨rfl, rfl, by decide, rfl⟩

/-- Claim C6 amended: hydrate leaves all four fields at their defaults
(empty strings and absent factResult) and raises nothing whenever the
stored payload is absent, fails to parse as JSON, or parses to
anything other than an object (including null); for object payloads it
defaults each field individually when that field is absent (or falsy),
adopting present truthy values without validating the SessionState
shape. -/
theorem claim_C6_amended :
    ∀ (raw : String) (j : Json) (fs : List (String × Json)),
      hydrateState none = defaultJsState ∧
      (jsonParse raw = none → hydrateState (some raw) = defaultJsState) ∧
      (jsonParse raw = some j → isJsonObjB j = false →
        hydrateState (some raw) = defaultJsState) ∧
      (jsonParse raw = some (.obj fs) →
        (objLookup fs "question" = none →
          (hydrateState (some raw)).question = .str "") ∧
        (objLookup fs "answer" = none →
          (hydrateState (some raw)).answer = .str "") ∧
        (objLookup fs "claim" = none →
          (hydrateState (some raw)).claim = .str "") ∧
        (objLookup fs "factResult" = none →
          (hydrateState (some raw)).factResult = .null)) := by
  intro raw j fs
  by_cases hraw : raw = ""
  · subst hraw
    refine ⟨rfl, fun _ => rfl, fun h _ => ?_, fun h => ?_⟩
    · exact Option.noConfusion h
    · exact Option.noConfusion h
  · refine ⟨rfl, ?_, ?_, ?_⟩
    · intro h
      rw [hydrateState, if_neg hraw, h]
    · intro h hobj
      rw [hydrateState, if_neg hraw, h]
      cases j with
      | null => rfl
      | bool b => simp [truthyOr, jsGet]; rfl
      | num n => simp [truthyOr, jsGet]; rfl
      | str s => simp [truthyOr, jsGet]; rfl
      | arr xs => simp [truthyOr, jsGet]; rfl
      | obj fs2 => exact absurd hobj (by simp [isJsonObjB])
    · intro h
      refine ⟨?_, ?_, ?_, ?_⟩ <;>
        (intro hl; rw [hydrateState, if_neg hraw, h]; simp [truthyOr, jsGet, hl])

/-- Claim C6 witness: unparseable storage text hydrates to the default
empty session. -/
theorem claim_C6_witness :
    hydrateState (some "oops") = defaultJsState :=
  (claim_C6_amended "oops" (.num 0) []).2.1 rfl

end RagUi
